import Mathlib

/-!
Shallow embedding of `src/ariston/velis_device.py` (class `AristonVelisDevice`).

Python dictionaries with string keys are association lists; Python floats are
rationals, which is faithful here because the module performs no floating-point
arithmetic (values are only stored, tested for truthiness and passed through);
the remote API collaborator is a function from a call record to an
`Except`-style result; a setter invocation is a pure function returning the
remote calls it issued, the device state when control returns, and the raised
error, if any.
-/

namespace Ariston

/-- A Python value stored in one of the device's dictionaries: the
`plant_settings` and `data` maps hold booleans and floats. -/
inductive Value where
  | bool (b : Bool)
  | float (q : ℚ)
deriving DecidableEq

/-- Python truthiness of a stored value, as used by the conditional expression
`1.0 if self.plant_settings[self.anti_legionella_on_off] else 0.0`:
`False` and `0.0` are falsy, everything else is truthy. -/
def Value.truthy : Value → Bool
  | .bool b => b
  | .float q => decide (q ≠ 0)

/-- A Python `dict` with string keys. -/
abbrev Dict := List (String × Value)

/-- `d.get(k, None)` / `d[k]` read: the value bound to `k`, if any. -/
def dictGet (d : Dict) (k : String) : Option Value :=
  match d with
  | [] => none
  | (k', v) :: rest => if k' = k then some v else dictGet rest k

/-- `d[k] = v`: replaces the existing binding, or appends a new one. -/
def dictSet (d : Dict) (k : String) (v : Value) : Dict :=
  match d with
  | [] => [(k, v)]
  | (k', v') :: rest => if k' = k then (k, v) :: rest else (k', v') :: dictSet rest k v

/-- The state of an `AristonVelisDevice`. `plant_data`, `gw` and `data` are
supplied by the excluded `AristonDevice` base class; `anti_legionella_on_off`
and `max_setpoint_temp` are the abstract key-name properties supplied by each
concrete subclass; the remaining fields are set by `__init__`. -/
structure Device where
  plant_data : String
  gw : String
  data : Dict
  plant_settings : Dict
  umsys : String
  unit : String
  language_tag : String
  anti_legionella_on_off : String
  max_setpoint_temp : String
deriving DecidableEq

/-- `AristonVelisDevice.__init__`: the base-class constructor supplies
`plant_data`, `gw` and `data`; this layer creates an empty `plant_settings`
dictionary and derives the unit system from `is_metric`. -/
def init (plant_data gw : String) (data : Dict) (akey mkey : String)
    (is_metric : Bool) (language_tag : String) : Device :=
  { plant_data := plant_data
    gw := gw
    data := data
    plant_settings := []
    umsys := if is_metric then "si" else "us"
    unit := if is_metric then "°C" else "°F"
    language_tag := language_tag
    anti_legionella_on_off := akey
    max_setpoint_temp := mkey }

/-- The argument tuple of one invocation of
`AristonAPI.set_velis_plant_setting` / `async_set_velis_plant_setting`. -/
structure RemoteCall where
  plant_data : String
  gw : String
  setting : String
  new_value : Value
  old_value : Value
  umsys : String
deriving DecidableEq

/-- The Python exceptions this layer can surface: a `KeyError` raised while
reading the cached old value, or an error raised by the remote API call. -/
inductive PyErr where
  | keyError (key : String)
  | apiError (msg : String)
deriving DecidableEq

/-- The behaviour of the remote API collaborator on one call. -/
abbrev Api := RemoteCall → Except PyErr Unit

/-- Observable outcome of one setter invocation: the remote calls issued in
order, the device state when control returns (an exception leaves the state as
it was at the raise point), and the error raised, if any. -/
structure Outcome where
  calls : List RemoteCall
  dev : Device
  err : Option PyErr
deriving DecidableEq

/-- The argument tuple `set_antilegionella` passes to the remote setter:
`(self.plant_data, self.gw, self.anti_legionella_on_off,
1.0 if anti_leg else 0.0, 1.0 if self.plant_settings[...] else 0.0,
self.umsys)`, with `old` the cached entry. -/
def antilegionellaCall (dev : Device) (anti_leg : Bool) (old : Value) : RemoteCall :=
  { plant_data := dev.plant_data
    gw := dev.gw
    setting := dev.anti_legionella_on_off
    new_value := .float (if anti_leg then 1 else 0)
    old_value := .float (if old.truthy then 1 else 0)
    umsys := dev.umsys }

/-- The argument tuple `set_max_setpoint_temp` passes to the remote setter:
`(self.plant_data, self.gw, self.max_setpoint_temp, max_setpoint_temp,
self.plant_settings[self.max_setpoint_temp], self.umsys)`: the new value and
the cached old value are passed through untransformed. -/
def maxSetpointCall (dev : Device) (v : ℚ) (old : Value) : RemoteCall :=
  { plant_data := dev.plant_data
    gw := dev.gw
    setting := dev.max_setpoint_temp
    new_value := .float v
    old_value := old
    umsys := dev.umsys }

/-- `set_antilegionella(anti_leg)`: Python evaluates the argument tuple left to
right, so `self.plant_settings[self.anti_legionella_on_off]` raises `KeyError`
before any remote call is issued when the key is absent; otherwise the remote
call is made, an error from it propagates with the cache untouched, and on
success the cache entry is set to the boolean `anti_leg`. -/
def set_antilegionella (api : Api) (dev : Device) (anti_leg : Bool) : Outcome :=
  match dictGet dev.plant_settings dev.anti_legionella_on_off with
  | none => ⟨[], dev, some (.keyError dev.anti_legionella_on_off)⟩
  | some old =>
    match api (antilegionellaCall dev anti_leg old) with
    | .error e => ⟨[antilegionellaCall dev anti_leg old], dev, some e⟩
    | .ok _ =>
      ⟨[antilegionellaCall dev anti_leg old],
       { dev with
          plant_settings :=
            dictSet dev.plant_settings dev.anti_legionella_on_off (.bool anti_leg) },
       none⟩

/-- `async_set_antilegionella(anti_leg)`: same body as the synchronous variant,
with the remote call awaited; `api` here models `async_set_velis_plant_setting`. -/
def async_set_antilegionella (api : Api) (dev : Device) (anti_leg : Bool) : Outcome :=
  match dictGet dev.plant_settings dev.anti_legionella_on_off with
  | none => ⟨[], dev, some (.keyError dev.anti_legionella_on_off)⟩
  | some old =>
    match api (antilegionellaCall dev anti_leg old) with
    | .error e => ⟨[antilegionellaCall dev anti_leg old], dev, some e⟩
    | .ok _ =>
      ⟨[antilegionellaCall dev anti_leg old],
       { dev with
          plant_settings :=
            dictSet dev.plant_settings dev.anti_legionella_on_off (.bool anti_leg) },
       none⟩

/-- `set_max_setpoint_temp(max_setpoint_temp)`: reads the cached old value
(raising `KeyError` before the remote call when absent), issues the remote
call, and on success stores the new float in the cache. -/
def set_max_setpoint_temp (api : Api) (dev : Device) (v : ℚ) : Outcome :=
  match dictGet dev.plant_settings dev.max_setpoint_temp with
  | none => ⟨[], dev, some (.keyError dev.max_setpoint_temp)⟩
  | some old =>
    match api (maxSetpointCall dev v old) with
    | .error e => ⟨[maxSetpointCall dev v old], dev, some e⟩
    | .ok _ =>
      ⟨[maxSetpointCall dev v old],
       { dev with
          plant_settings := dictSet dev.plant_settings dev.max_setpoint_temp (.float v) },
       none⟩

/-- `async_set_max_setpoint_temp`: same body as the synchronous variant, with
the remote call awaited. -/
def async_set_max_setpoint_temp (api : Api) (dev : Device) (v : ℚ) : Outcome :=
  match dictGet dev.plant_settings dev.max_setpoint_temp with
  | none => ⟨[], dev, some (.keyError dev.max_setpoint_temp)⟩
  | some old =>
    match api (maxSetpointCall dev v old) with
    | .error e => ⟨[maxSetpointCall dev v old], dev, some e⟩
    | .ok _ =>
      ⟨[maxSetpointCall dev v old],
       { dev with
          plant_settings := dictSet dev.plant_settings dev.max_setpoint_temp (.float v) },
       none⟩

/-- `water_anti_leg_value`:
`self.plant_settings.get(self.anti_legionella_on_off, None)`. -/
def water_anti_leg_value (dev : Device) : Option Value :=
  dictGet dev.plant_settings dev.anti_legionella_on_off

/-- Modelled from the spec: `VelisDeviceProperties.PROC_REQ_TEMP`, the
process-requested-temperature key, lives in the excluded `const` module; only
its role as the fixed lookup key of `proc_req_temp_value` in `data` matters. -/
def PROC_REQ_TEMP : String := "procReqTemp"

/-- `proc_req_temp_value`:
`self.data.get(VelisDeviceProperties.PROC_REQ_TEMP, None)`. -/
def proc_req_temp_value (dev : Device) : Option Value :=
  dictGet dev.data PROC_REQ_TEMP

/-- `water_heater_maximum_setpoint_temperature`:
`self.plant_settings.get(self.max_setpoint_temp, None)`. -/
def water_heater_maximum_setpoint_temperature (dev : Device) : Option Value :=
  dictGet dev.plant_settings dev.max_setpoint_temp

/-- `water_heater_minimum_temperature`: the constant `40.0`. -/
def water_heater_minimum_temperature (_dev : Device) : ℚ := 40

/-- `water_heater_maximum_temperature`: delegates to
`water_heater_maximum_setpoint_temperature`. -/
def water_heater_maximum_temperature (dev : Device) : Option Value :=
  water_heater_maximum_setpoint_temperature dev

/-- `water_heater_temperature_step`: the constant `1`. -/
def water_heater_temperature_step (_dev : Device) : ℤ := 1

/-- `water_heater_temperature_decimals`: the constant `0`. -/
def water_heater_temperature_decimals (_dev : Device) : ℤ := 0

/-- `water_heater_temperature_unit`: returns `self.unit`. -/
def water_heater_temperature_unit (dev : Device) : String := dev.unit

end Ariston

namespace Ariston

/- Helper lemmas about the dictionary operations, shared by the claims. -/

theorem dictGet_dictSet_self (d : Dict) (k : String) (v : Value) :
    dictGet (dictSet d k v) k = some v := by
  induction d with
  | nil => simp [dictSet, dictGet]
  | cons hd tl ih =>
    obtain ⟨k', v'⟩ := hd
    by_cases h : k' = k <;> simp [dictSet, dictGet, h, ih]

theorem dictGet_dictSet_ne (d : Dict) (k k' : String) (v : Value) (h : k' ≠ k) :
    dictGet (dictSet d k v) k' = dictGet d k' := by
  induction d with
  | nil => simp [dictSet, dictGet, Ne.symm h]
  | cons hd tl ih =>
    obtain ⟨k₀, v₀⟩ := hd
    by_cases h0 : k₀ = k
    · subst h0
      simp [dictSet, dictGet, Ne.symm h]
    · simp only [dictSet, if_neg h0, dictGet]
      by_cases h1 : k₀ = k' <;> simp [h1, ih]

/- Reduction lemmas for the setters, shared by the claims. -/

theorem set_antilegionella_of_get_some (api : Api) (dev : Device) (flag : Bool)
    (old : Value)
    (hold : dictGet dev.plant_settings dev.anti_legionella_on_off = some old) :
    set_antilegionella api dev flag =
      match api (antilegionellaCall dev flag old) with
      | .error e => ⟨[antilegionellaCall dev flag old], dev, some e⟩
      | .ok _ =>
        ⟨[antilegionellaCall dev flag old],
         { dev with
            plant_settings :=
              dictSet dev.plant_settings dev.anti_legionella_on_off (.bool flag) },
         none⟩ := by
  unfold set_antilegionella
  rw [hold]

theorem set_max_setpoint_temp_of_get_some (api : Api) (dev : Device) (v : ℚ)
    (old : Value)
    (hold : dictGet dev.plant_settings dev.max_setpoint_temp = some old) :
    set_max_setpoint_temp api dev v =
      match api (maxSetpointCall dev v old) with
      | .error e => ⟨[maxSetpointCall dev v old], dev, some e⟩
      | .ok _ =>
        ⟨[maxSetpointCall dev v old],
         { dev with
            plant_settings := dictSet dev.plant_settings dev.max_setpoint_temp (.float v) },
         none⟩ := by
  unfold set_max_setpoint_temp
  rw [hold]

theorem async_set_antilegionella_eq (api : Api) (dev : Device) (flag : Bool) :
    async_set_antilegionella api dev flag = set_antilegionella api dev flag := rfl

theorem async_set_max_setpoint_temp_eq (api : Api) (dev : Device) (v : ℚ) :
    async_set_max_setpoint_temp api dev v = set_max_setpoint_temp api dev v := rfl

/- Concrete artifacts used by witnesses: the spec's example device
(`is_metric=True`, `plant_settings = {"AntiLeg": False, "MaxSetpoint": 60.0}`)
and simple remote-API behaviours. -/

def okApi : Api := fun _ => .ok ()

def failApi : Api := fun _ => .error (.apiError "boom")

def demoDev : Device :=
  { plant_data := "Se"
    gw := "gateway-1"
    data := [("procReqTemp", .float 55)]
    plant_settings := [("AntiLeg", .bool false), ("MaxSetpoint", .float 60)]
    umsys := "si"
    unit := "°C"
    language_tag := "en-US"
    anti_legionella_on_off := "AntiLeg"
    max_setpoint_temp := "MaxSetpoint" }

def emptyDev : Device :=
  init "Se" "gateway-1" [] "AntiLeg" "MaxSetpoint" true "en-US"

end Ariston

namespace Ariston

/- Missing-key reduction lemmas, shared by several claims. -/

theorem set_antilegionella_of_get_none (api : Api) (dev : Device) (flag : Bool)
    (h : dictGet dev.plant_settings dev.anti_legionella_on_off = none) :
    set_antilegionella api dev flag =
      ⟨[], dev, some (.keyError dev.anti_legionella_on_off)⟩ := by
  unfold set_antilegionella
  rw [h]

theorem set_max_setpoint_temp_of_get_none (api : Api) (dev : Device) (v : ℚ)
    (h : dictGet dev.plant_settings dev.max_setpoint_temp = none) :
    set_max_setpoint_temp api dev v =
      ⟨[], dev, some (.keyError dev.max_setpoint_temp)⟩ := by
  unfold set_max_setpoint_temp
  rw [h]

/-- C1: when `set_antilegionella flag` (or its async variant) succeeds — the
cached anti-legionella entry exists and the remote call returns without error —
it issues exactly one `set_velis_plant_setting` call carrying the device's
`plant_data`, `gw`, the `anti_legionella_on_off` key, new value `1.0` if `flag`
else `0.0`, old value `1.0` if the cached entry is truthy else `0.0`, and
`umsys`; afterwards `water_anti_leg_value` reads back `flag`. -/
theorem c1_set_antilegionella_success (api : Api) (dev : Device) (flag : Bool)
    (old : Value)
    (hold : dictGet dev.plant_settings dev.anti_legionella_on_off = some old)
    (hok : api (antilegionellaCall dev flag old) = .ok ()) :
    (set_antilegionella api dev flag).err = none ∧
    (set_antilegionella api dev flag).calls = [antilegionellaCall dev flag old] ∧
    antilegionellaCall dev flag old =
      { plant_data := dev.plant_data
        gw := dev.gw
        setting := dev.anti_legionella_on_off
        new_value := .float (if flag then 1 else 0)
        old_value := .float (if old.truthy then 1 else 0)
        umsys := dev.umsys } ∧
    water_anti_leg_value (set_antilegionella api dev flag).dev = some (.bool flag) ∧
    async_set_antilegionella api dev flag = set_antilegionella api dev flag := by
  rw [async_set_antilegionella_eq,
      set_antilegionella_of_get_some api dev flag old hold, hok]
  refine ⟨rfl, rfl, rfl, ?_, rfl⟩
  simpa [water_anti_leg_value] using
    dictGet_dictSet_self dev.plant_settings dev.anti_legionella_on_off (Value.bool flag)

theorem c1_set_antilegionella_success_witness :
    (set_antilegionella okApi demoDev true).err = none ∧
    (set_antilegionella okApi demoDev true).calls =
      [antilegionellaCall demoDev true (.bool false)] ∧
    antilegionellaCall demoDev true (.bool false) =
      { plant_data := demoDev.plant_data
        gw := demoDev.gw
        setting := demoDev.anti_legionella_on_off
        new_value := .float (if true then 1 else 0)
        old_value := .float (if (Value.bool false).truthy then 1 else 0)
        umsys := demoDev.umsys } ∧
    water_anti_leg_value (set_antilegionella okApi demoDev true).dev =
      some (.bool true) ∧
    async_set_antilegionella okApi demoDev true = set_antilegionella okApi demoDev true :=
  c1_set_antilegionella_success okApi demoDev true (.bool false) rfl rfl

/-- C2: when `set_max_setpoint_temp v` (or its async variant) succeeds, it
issues exactly one `set_velis_plant_setting` call carrying the
`max_setpoint_temp` key, new value `v` and the cached old value, both raw
floats with no numeric transform; afterwards both
`water_heater_maximum_setpoint_temperature` and
`water_heater_maximum_temperature` (which always delegates to the former)
read back `v`. -/
theorem c2_set_max_setpoint_temp_success (api : Api) (dev : Device) (v old : ℚ)
    (hold : dictGet dev.plant_settings dev.max_setpoint_temp = some (.float old))
    (hok : api (maxSetpointCall dev v (.float old)) = .ok ()) :
    (set_max_setpoint_temp api dev v).err = none ∧
    (set_max_setpoint_temp api dev v).calls = [maxSetpointCall dev v (.float old)] ∧
    maxSetpointCall dev v (.float old) =
      { plant_data := dev.plant_data
        gw := dev.gw
        setting := dev.max_setpoint_temp
        new_value := .float v
        old_value := .float old
        umsys := dev.umsys } ∧
    water_heater_maximum_setpoint_temperature (set_max_setpoint_temp api dev v).dev =
      some (.float v) ∧
    water_heater_maximum_temperature (set_max_setpoint_temp api dev v).dev =
      some (.float v) ∧
    (∀ d : Device,
      water_heater_maximum_temperature d = water_heater_maximum_setpoint_temperature d) ∧
    async_set_max_setpoint_temp api dev v = set_max_setpoint_temp api dev v := by
  rw [async_set_max_setpoint_temp_eq,
      set_max_setpoint_temp_of_get_some api dev v (.float old) hold, hok]
  refine ⟨rfl, rfl, rfl, ?_, ?_, fun d => rfl, rfl⟩
  · simpa [water_heater_maximum_setpoint_temperature] using
      dictGet_dictSet_self dev.plant_settings dev.max_setpoint_temp (Value.float v)
  · simpa [water_heater_maximum_temperature,
      water_heater_maximum_setpoint_temperature] using
      dictGet_dictSet_self dev.plant_settings dev.max_setpoint_temp (Value.float v)

theorem c2_set_max_setpoint_temp_success_witness :
    (set_max_setpoint_temp okApi demoDev 65).err = none ∧
    (set_max_setpoint_temp okApi demoDev 65).calls =
      [maxSetpointCall demoDev 65 (.float 60)] ∧
    maxSetpointCall demoDev 65 (.float 60) =
      { plant_data := demoDev.plant_data
        gw := demoDev.gw
        setting := demoDev.max_setpoint_temp
        new_value := .float 65
        old_value := .float 60
        umsys := demoDev.umsys } ∧
    water_heater_maximum_setpoint_temperature (set_max_setpoint_temp okApi demoDev 65).dev =
      some (.float 65) ∧
    water_heater_maximum_temperature (set_max_setpoint_temp okApi demoDev 65).dev =
      some (.float 65) ∧
    (∀ d : Device,
      water_heater_maximum_temperature d = water_heater_maximum_setpoint_temperature d) ∧
    async_set_max_setpoint_temp okApi demoDev 65 = set_max_setpoint_temp okApi demoDev 65 :=
  c2_set_max_setpoint_temp_success okApi demoDev 65 60 rfl rfl

/-- C3: if the remote call raises, each setter (sync or async) propagates that
exact error and returns with the device — in particular every `plant_settings`
entry — exactly as it was before the call. -/
theorem c3_remote_failure_no_partial_update (api : Api) (dev : Device)
    (flag : Bool) (v : ℚ) (oldA oldM : Value) (eA eM : PyErr)
    (hA : dictGet dev.plant_settings dev.anti_legionella_on_off = some oldA)
    (hM : dictGet dev.plant_settings dev.max_setpoint_temp = some oldM)
    (heA : api (antilegionellaCall dev flag oldA) = .error eA)
    (heM : api (maxSetpointCall dev v oldM) = .error eM) :
    set_antilegionella api dev flag =
      ⟨[antilegionellaCall dev flag oldA], dev, some eA⟩ ∧
    async_set_antilegionella api dev flag =
      ⟨[antilegionellaCall dev flag oldA], dev, some eA⟩ ∧
    set_max_setpoint_temp api dev v =
      ⟨[maxSetpointCall dev v oldM], dev, some eM⟩ ∧
    async_set_max_setpoint_temp api dev v =
      ⟨[maxSetpointCall dev v oldM], dev, some eM⟩ := by
  rw [async_set_antilegionella_eq, async_set_max_setpoint_temp_eq,
      set_antilegionella_of_get_some api dev flag oldA hA,
      set_max_setpoint_temp_of_get_some api dev v oldM hM, heA, heM]
  exact ⟨rfl, rfl, rfl, rfl⟩

theorem c3_remote_failure_no_partial_update_witness :
    set_antilegionella failApi demoDev true =
      ⟨[antilegionellaCall demoDev true (.bool false)], demoDev, some (.apiError "boom")⟩ ∧
    async_set_antilegionella failApi demoDev true =
      ⟨[antilegionellaCall demoDev true (.bool false)], demoDev, some (.apiError "boom")⟩ ∧
    set_max_setpoint_temp failApi demoDev 65 =
      ⟨[maxSetpointCall demoDev 65 (.float 60)], demoDev, some (.apiError "boom")⟩ ∧
    async_set_max_setpoint_temp failApi demoDev 65 =
      ⟨[maxSetpointCall demoDev 65 (.float 60)], demoDev, some (.apiError "boom")⟩ :=
  c3_remote_failure_no_partial_update failApi demoDev true 65 (.bool false)
    (.float 60) (.apiError "boom") (.apiError "boom") rfl rfl rfl rfl

/-- C4: when the anti-legionella key is absent from `plant_settings`,
`set_antilegionella` (sync or async) fails with a `KeyError` for that key and
leaves the device unchanged — in particular the key is still absent. -/
theorem c4_missing_key_antilegionella (api : Api) (dev : Device) (flag : Bool)
    (h : dictGet dev.plant_settings dev.anti_legionella_on_off = none) :
    set_antilegionella api dev flag =
      ⟨[], dev, some (.keyError dev.anti_legionella_on_off)⟩ ∧
    async_set_antilegionella api dev flag =
      ⟨[], dev, some (.keyError dev.anti_legionella_on_off)⟩ ∧
    dictGet (set_antilegionella api dev flag).dev.plant_settings
      dev.anti_legionella_on_off = none := by
  have h1 := set_antilegionella_of_get_none api dev flag h
  refine ⟨h1, ?_, ?_⟩
  · rw [async_set_antilegionella_eq]
    exact h1
  · rw [h1]
    exact h

theorem c4_missing_key_antilegionella_witness :
    set_antilegionella okApi emptyDev true =
      ⟨[], emptyDev, some (.keyError emptyDev.anti_legionella_on_off)⟩ ∧
    async_set_antilegionella okApi emptyDev true =
      ⟨[], emptyDev, some (.keyError emptyDev.anti_legionella_on_off)⟩ ∧
    dictGet (set_antilegionella okApi emptyDev true).dev.plant_settings
      emptyDev.anti_legionella_on_off = none :=
  c4_missing_key_antilegionella okApi emptyDev true rfl

/-- C5: for every remote-API behaviour, device state and argument, the async
variant of each setter returns exactly the same outcome — same remote-call
argument tuple, same cache update, same error — as the sync variant; in the
embedding, where the await point is erased, the two are equal functions. -/
theorem c5_sync_async_identical_semantics (api : Api) (dev : Device)
    (flag : Bool) (v : ℚ) :
    async_set_antilegionella api dev flag = set_antilegionella api dev flag ∧
    async_set_max_setpoint_temp api dev v = set_max_setpoint_temp api dev v :=
  ⟨rfl, rfl⟩

/-- C6: the derived read accessors are pure functions of the cached state
(their type is `Device → Option Value`, so they can neither perform I/O nor
modify the device), and when the underlying key is missing each returns
`none` rather than raising. -/
theorem c6_absent_data_reads (dev : Device)
    (h1 : dictGet dev.plant_settings dev.anti_legionella_on_off = none)
    (h2 : dictGet dev.data PROC_REQ_TEMP = none)
    (h3 : dictGet dev.plant_settings dev.max_setpoint_temp = none) :
    water_anti_leg_value dev = none ∧
    proc_req_temp_value dev = none ∧
    water_heater_maximum_setpoint_temperature dev = none :=
  ⟨h1, h2, h3⟩

theorem c6_absent_data_reads_witness :
    water_anti_leg_value emptyDev = none ∧
    proc_req_temp_value emptyDev = none ∧
    water_heater_maximum_setpoint_temperature emptyDev = none :=
  c6_absent_data_reads emptyDev rfl rfl rfl

/-- C7: construction with `is_metric = true` yields `umsys = "si"` and
`unit = "°C"`, with `is_metric = false` yields `umsys = "us"` and
`unit = "°F"`, and `water_heater_temperature_unit` returns exactly the
configured unit label. -/
theorem c7_unit_system_from_is_metric (plant_data gw : String) (data : Dict)
    (akey mkey ltag : String) :
    (init plant_data gw data akey mkey true ltag).umsys = "si" ∧
    (init plant_data gw data akey mkey true ltag).unit = "°C" ∧
    water_heater_temperature_unit (init plant_data gw data akey mkey true ltag) = "°C" ∧
    (init plant_data gw data akey mkey false ltag).umsys = "us" ∧
    (init plant_data gw data akey mkey false ltag).unit = "°F" ∧
    water_heater_temperature_unit (init plant_data gw data akey mkey false ltag) = "°F" :=
  ⟨rfl, rfl, rfl, rfl, rfl, rfl⟩

/-- C8: `water_heater_minimum_temperature` is the constant `40.0`, whatever
the device state. -/
theorem c8_minimum_temperature_constant (dev : Device) :
    water_heater_minimum_temperature dev = 40 := rfl

end Ariston

namespace Ariston

/-- The frame every setter respects with respect to a starting state `dev` and
its own target key: every device field other than the `plant_settings` entry
for the target key is untouched (so `umsys`, `unit`, `language_tag` and `data`
are never mutated after construction). -/
def framePreserved (dev dev' : Device) (target : String) : Prop :=
  dev'.plant_data = dev.plant_data ∧
  dev'.gw = dev.gw ∧
  dev'.data = dev.data ∧
  dev'.umsys = dev.umsys ∧
  dev'.unit = dev.unit ∧
  dev'.language_tag = dev.language_tag ∧
  dev'.anti_legionella_on_off = dev.anti_legionella_on_off ∧
  dev'.max_setpoint_temp = dev.max_setpoint_temp ∧
  ∀ k, k ≠ target → dictGet dev'.plant_settings k = dictGet dev.plant_settings k

theorem framePreserved_refl (dev : Device) (target : String) :
    framePreserved dev dev target :=
  ⟨rfl, rfl, rfl, rfl, rfl, rfl, rfl, rfl, fun _ _ => rfl⟩

theorem framePreserved_dictSet (dev : Device) (target : String) (v : Value) :
    framePreserved dev
      { dev with plant_settings := dictSet dev.plant_settings target v } target :=
  ⟨rfl, rfl, rfl, rfl, rfl, rfl, rfl, rfl,
   fun k hk => dictGet_dictSet_ne dev.plant_settings target k v hk⟩

theorem set_antilegionella_frame (api : Api) (dev : Device) (flag : Bool) :
    framePreserved dev (set_antilegionella api dev flag).dev
      dev.anti_legionella_on_off := by
  cases hget : dictGet dev.plant_settings dev.anti_legionella_on_off with
  | none =>
      rw [set_antilegionella_of_get_none api dev flag hget]
      exact framePreserved_refl dev _
  | some old =>
      rw [set_antilegionella_of_get_some api dev flag old hget]
      cases hapi : api (antilegionellaCall dev flag old) with
      | error e => exact framePreserved_refl dev _
      | ok u => exact framePreserved_dictSet dev _ _

theorem set_max_setpoint_temp_frame (api : Api) (dev : Device) (v : ℚ) :
    framePreserved dev (set_max_setpoint_temp api dev v).dev
      dev.max_setpoint_temp := by
  cases hget : dictGet dev.plant_settings dev.max_setpoint_temp with
  | none =>
      rw [set_max_setpoint_temp_of_get_none api dev v hget]
      exact framePreserved_refl dev _
  | some old =>
      rw [set_max_setpoint_temp_of_get_some api dev v old hget]
      cases hapi : api (maxSetpointCall dev v old) with
      | error e => exact framePreserved_refl dev _
      | ok u => exact framePreserved_dictSet dev _ _

/-- C9: every setter, sync or async, succeeding or failing, mutates at most
the single `plant_settings` entry for its own target key: `umsys`, `unit`,
`language_tag`, `plant_data`, `gw`, the key names, the `data` mapping, and
every other `plant_settings` entry are unchanged; the read accessors are pure
functions and mutate nothing. -/
theorem c9_setters_frame (api : Api) (dev : Device) (flag : Bool) (v : ℚ) :
    framePreserved dev (set_antilegionella api dev flag).dev
      dev.anti_legionella_on_off ∧
    framePreserved dev (async_set_antilegionella api dev flag).dev
      dev.anti_legionella_on_off ∧
    framePreserved dev (set_max_setpoint_temp api dev v).dev
      dev.max_setpoint_temp ∧
    framePreserved dev (async_set_max_setpoint_temp api dev v).dev
      dev.max_setpoint_temp := by
  refine ⟨set_antilegionella_frame api dev flag, ?_,
          set_max_setpoint_temp_frame api dev v, ?_⟩
  · rw [async_set_antilegionella_eq]
    exact set_antilegionella_frame api dev flag
  · rw [async_set_max_setpoint_temp_eq]
    exact set_max_setpoint_temp_frame api dev v

theorem c9_setters_frame_witness :
    framePreserved demoDev (set_antilegionella okApi demoDev true).dev
      demoDev.anti_legionella_on_off ∧
    framePreserved demoDev (async_set_antilegionella okApi demoDev true).dev
      demoDev.anti_legionella_on_off ∧
    framePreserved demoDev (set_max_setpoint_temp okApi demoDev 65).dev
      demoDev.max_setpoint_temp ∧
    framePreserved demoDev (async_set_max_setpoint_temp okApi demoDev 65).dev
      demoDev.max_setpoint_temp :=
  c9_setters_frame okApi demoDev true 65

/-- C10: when the target key is absent from `plant_settings`, each setter
(sync or async) raises the `KeyError` while evaluating the old-value argument
and issues no remote call at all. -/
theorem c10_missing_key_no_remote_call (api : Api) (dev : Device) (flag : Bool)
    (v : ℚ)
    (hA : dictGet dev.plant_settings dev.anti_legionella_on_off = none)
    (hM : dictGet dev.plant_settings dev.max_setpoint_temp = none) :
    (set_antilegionella api dev flag).calls = [] ∧
    (async_set_antilegionella api dev flag).calls = [] ∧
    (set_max_setpoint_temp api dev v).calls = [] ∧
    (async_set_max_setpoint_temp api dev v).calls = [] ∧
    (set_antilegionella api dev flag).err =
      some (.keyError dev.anti_legionella_on_off) ∧
    (set_max_setpoint_temp api dev v).err =
      some (.keyError dev.max_setpoint_temp) := by
  rw [async_set_antilegionella_eq, async_set_max_setpoint_temp_eq,
      set_antilegionella_of_get_none api dev flag hA,
      set_max_setpoint_temp_of_get_none api dev v hM]
  exact ⟨rfl, rfl, rfl, rfl, rfl, rfl⟩

theorem c10_missing_key_no_remote_call_witness :
    (set_antilegionella okApi emptyDev true).calls = [] ∧
    (async_set_antilegionella okApi emptyDev true).calls = [] ∧
    (set_max_setpoint_temp okApi emptyDev 65).calls = [] ∧
    (async_set_max_setpoint_temp okApi emptyDev 65).calls = [] ∧
    (set_antilegionella okApi emptyDev true).err =
      some (.keyError emptyDev.anti_legionella_on_off) ∧
    (set_max_setpoint_temp okApi emptyDev 65).err =
      some (.keyError emptyDev.max_setpoint_temp) :=
  c10_missing_key_no_remote_call okApi emptyDev true 65 rfl rfl

end Ariston
